import Mathlib

/-!
Verification of the llm-helper core: the hardware resolver
(`src/utils/gpuDatabase.ts`, re-exported through `hardwareDetection.ts`) and the
fitness/recommendation engine (`src/utils/recommendationEngine.ts`, current
revision).  JavaScript numbers are idealised: the resolver only performs
rational arithmetic and is embedded over `ℚ` (fully executable); the scoring
engine applies `Math.pow(x, 1.8)` and is embedded over `ℝ` with `Real.rpow`.
String handling (`toLowerCase`, `includes`, the literal regex patterns) is
embedded over `String`/`List Char`.
-/

/-! ### String primitives shared by both components -/

/-- ASCII lower-casing of one character (the identifiers handled by the
resolver are ASCII, where JS `toLowerCase` is exactly this map). -/
def lowerChar (c : Char) : Char :=
  if 'A' ≤ c ∧ c ≤ 'Z' then Char.ofNat (c.toNat + 32) else c

/-- JS `s.toLowerCase()` as a character-list map (kernel-reducible, unlike
`String.toLower`). -/
def jsToLower (s : String) : String :=
  ⟨s.data.map lowerChar⟩

/-- JS `String.prototype.includes` on character lists: `needle` occurs as a
contiguous sublist of `hay`. -/
def containsChars (needle : List Char) : List Char → Bool
  | [] => needle.isEmpty
  | c :: t => needle.isPrefixOf (c :: t) || containsChars needle t

/-- JS `hay.includes(needle)` (case sensitive; callers lowercase first). -/
def strIncludes (hay needle : String) : Bool :=
  containsChars needle.data hay.data

/-- One step of matching a token sequence separated by `\s*` (as in the fixed
regexes `/RTX\s*4090/i` …): each token must appear literally, with arbitrary
whitespace allowed between consecutive tokens. -/
def matchTokensHere : List (List Char) → List Char → Bool
  | [], _ => true
  | t :: ts, s =>
      t.isPrefixOf s && matchTokensHere ts ((s.drop t.length).dropWhile Char.isWhitespace)

/-- Regex-style unanchored search: the token sequence matches at some position
of the string. -/
def matchTokensFrom (toks : List (List Char)) : List Char → Bool
  | [] => matchTokensHere toks []
  | c :: t => matchTokensHere toks (c :: t) || matchTokensFrom toks t

/-- Case-insensitive test of one hard-coded pattern (token list, already in
lower case) against a GPU model string. -/
def patternTest (toks : List String) (s : String) : Bool :=
  matchTokensFrom (toks.map (fun t => t.data)) (jsToLower s).data

namespace GpuDatabase

/-- `GPUSpec.vramGB : number | number[] | 'shared'` from `gpuDatabase.ts`. -/
inductive VRAMField where
  | single (q : ℚ)
  | multi (qs : List ℚ)
  | shared
  deriving DecidableEq, Repr

/-- `GPUSpec.type : 'Discrete' | 'Integrated'`. -/
inductive GPUType where
  | discrete
  | integrated
  deriving DecidableEq, Repr

/-- A reference-database record (`GPUSpec` in `gpuDatabase.ts`). -/
structure GPUSpec where
  manufacturer : String
  model : String
  gpuType : GPUType
  vramGB : VRAMField
  isIntegrated : Bool
  deriving DecidableEq, Repr

/-- Fidelity tag of a resolution (`source: 'database' | 'estimated'`). -/
inductive Source where
  | database
  | estimated
  deriving DecidableEq, Repr

/-- Result record of `findGPUSpec`. -/
structure FindResult where
  vram : ℚ
  source : Source
  deriving DecidableEq, Repr

/-- `Math.min` on two rationals. -/
def jsMin (a b : ℚ) : ℚ :=
  if a ≤ b then a else b

/-- `Math.max(...)` over a spread array.  The databases produced by
`parseVRAM` only ever store non-empty lists, so the `[]` case (JS would give
`-Infinity`) is unreachable there; we return `0`. -/
def spreadMax : List ℚ → ℚ
  | [] => 0
  | x :: xs => xs.foldl max x

/-- `estimateIntegratedGPUVRAM(gpuName, systemRAM?)`: tiered shared-memory
estimate.  JS note: `if (!systemRAM) return 4` fires both when the hint is
absent and when it is `0` (falsy). -/
def estimateIntegratedGPUVRAM (gpuName : String) (systemRAM : Option ℚ) : ℚ :=
  match systemRAM with
  | none => 4
  | some ram =>
    if ram = 0 then 4
    else
      let lower := jsToLower gpuName
      if strIncludes lower "780m" || strIncludes lower "890m" ||
         strIncludes lower "880m" || strIncludes lower "iris xe" then
        jsMin ((⌊ram * (1/2)⌋ : ℤ) : ℚ) 16
      else if strIncludes lower "680m" || strIncludes lower "760m" ||
              strIncludes lower "660m" || strIncludes lower "vega" then
        jsMin ((⌊ram * (2/5)⌋ : ℤ) : ℚ) 12
      else if strIncludes lower "uhd" || strIncludes lower "intel hd" then
        jsMin ((⌊ram * (1/4)⌋ : ℤ) : ℚ) 8
      else
        jsMin ((⌊ram * (3/10)⌋ : ℤ) : ℚ) 8

/-- The fixed, ordered pattern list of `estimateVRAMFromPattern` (token lists
for the literal `/…\s*…/i` regexes, lower-cased). -/
def vramPatterns : List (List String × ℚ) :=
  [ (["rtx", "5090"], 32), (["rtx", "5080"], 16), (["rtx", "5070"], 12), (["rtx", "5060"], 8),
    (["rtx", "4090"], 24), (["rtx", "4080"], 16), (["rtx", "4070", "ti"], 12), (["rtx", "4070"], 12),
    (["rtx", "4060", "ti"], 8), (["rtx", "4060"], 8),
    (["rtx", "3090"], 24), (["rtx", "3080"], 10), (["rtx", "3070"], 8), (["rtx", "3060"], 12),
    (["rx", "7900", "xtx"], 24), (["rx", "7900", "xt"], 20), (["rx", "7800", "xt"], 16),
    (["rx", "6900"], 16), (["rx", "6800"], 16),
    (["m1", "max"], 32), (["m2", "max"], 38), (["m3", "max"], 48), (["m4", "max"], 48) ]

/-- The integrated-GPU keyword test at the bottom of `estimateVRAMFromPattern`
(JS `&&` binds tighter than `||`). -/
def integratedKeyword (gpuModel : String) : Bool :=
  let l := jsToLower gpuModel
  strIncludes l "integrated" || strIncludes l "intel" || strIncludes l "uhd" ||
  strIncludes l "iris" || (strIncludes l "radeon" && strIncludes l "graphics") ||
  strIncludes l "vega" || strIncludes l "angle"

/-- `estimateVRAMFromPattern(gpuModel, systemRAM?)`: first matching pattern
wins; otherwise keyword-classified integrated chips are routed to the
shared-memory estimator; otherwise the conservative discrete default `6`. -/
def estimateVRAMFromPattern (gpuModel : String) (systemRAM : Option ℚ) : ℚ :=
  match vramPatterns.find? (fun p => patternTest p.1 gpuModel) with
  | some p => p.2
  | none =>
    if integratedKeyword gpuModel then
      estimateIntegratedGPUVRAM gpuModel systemRAM
    else
      6

/-- The database lookup of `findGPUSpec`: exact (manufacturer + model) match
first, then partial (model only). -/
def dbLookup (db : List GPUSpec) (normalized : String) : Option GPUSpec :=
  match db.find? (fun gpu =>
      strIncludes normalized (jsToLower gpu.model) &&
      strIncludes normalized (jsToLower gpu.manufacturer)) with
  | some g => some g
  | none => db.find? (fun gpu => strIncludes normalized (jsToLower gpu.model))

/-- `findGPUSpec(detectedGPUName, systemRAM?)`, with the module-level database
made an explicit argument. -/
def findGPUSpec (db : List GPUSpec) (detectedGPUName : String)
    (systemRAM : Option ℚ) : FindResult :=
  let normalized := jsToLower detectedGPUName
  match dbLookup db normalized with
  | some m =>
    if m.gpuType = GPUType.integrated ∨ m.vramGB = VRAMField.shared then
      { vram := estimateIntegratedGPUVRAM detectedGPUName systemRAM, source := Source.database }
    else
      match m.vramGB with
      | VRAMField.multi qs => { vram := spreadMax qs, source := Source.database }
      | VRAMField.single q => { vram := q, source := Source.database }
      | VRAMField.shared => { vram := 0, source := Source.database }
  | none =>
    { vram := estimateVRAMFromPattern detectedGPUName systemRAM, source := Source.estimated }

end GpuDatabase

/-! ### Number parsing (`model.parameters.match(/(\d+(?:\.\d+)?)\s*B/i)`) -/

/-- Numeric value of a decimal digit character. -/
def digitVal (c : Char) : ℕ := c.toNat - 48

/-- Value of a digit run read most-significant first. -/
def digitsToNat (ds : List Char) : ℕ :=
  ds.foldl (fun a c => 10 * a + digitVal c) 0

/-- Try to match `(\d+(?:\.\d+)?)\s*B` (case-insensitive `B`) anchored at the
start of `s`, returning `parseFloat` of the captured group on success.  The
digit runs are taken greedily, which coincides with the regex semantics here
since nothing after `\d+` can consume a digit. -/
def matchParamAt (s : List Char) : Option ℚ :=
  let ds := s.takeWhile Char.isDigit
  let r1 := s.dropWhile Char.isDigit
  if ds.isEmpty then none
  else
    let fr :=
      match r1 with
      | '.' :: r =>
        let f := r.takeWhile Char.isDigit
        if f.isEmpty then ([], r1) else (f, r.dropWhile Char.isDigit)
      | _ => (([] : List Char), r1)
    let r3 := fr.2.dropWhile Char.isWhitespace
    match r3 with
    | c :: _ =>
      if c = 'B' ∨ c = 'b' then
        some ((digitsToNat ds : ℚ) + (digitsToNat fr.1 : ℚ) / (10 ^ fr.1.length : ℚ))
      else none
    | [] => none

/-- Unanchored first match, scanning left to right as the JS regex engine
does. -/
def scanParam : List Char → Option ℚ
  | [] => none
  | c :: t =>
    match matchParamAt (c :: t) with
    | some q => some q
    | none => scanParam t

/-! ### The fitness/recommendation engine (`recommendationEngine.ts`) -/

namespace RecommendationEngine

noncomputable section

/-- JS `Math.round` (round half toward `+∞`), as a real-valued function. -/
def jround (x : ℝ) : ℝ := ((⌊x + 1/2⌋ : ℤ) : ℝ)

/-- `'positive' | 'neutral' | 'negative'`. -/
inductive Rating where
  | positive
  | neutral
  | negative
  deriving DecidableEq, Repr

/-- `'high' | 'medium' | 'low'`. -/
inductive Impact where
  | high
  | medium
  | low
  deriving DecidableEq, Repr

/-- `ExplainableReason` from `lib/types.ts`.  The `explanation` field is a
purely presentational template string (it renders rounded percentages); no
logic reads it back, so it is not modelled. -/
structure ExplainableReason where
  factor : String
  rating : Rating
  impact : Impact
  deriving DecidableEq, Repr

/-- `FitnessCategory`. -/
inductive FitnessCategory where
  | excellent
  | good
  | fair
  | poor
  | incompatible
  deriving DecidableEq, Repr

/-- `FitnessAssessment`. -/
structure FitnessAssessment where
  category : FitnessCategory
  score : ℝ
  reasons : List ExplainableReason
  warnings : List String
  recommendations : List String

/-- `ModelVariant`. -/
structure ModelVariant where
  quantization : String
  vramRequired : ℝ
  ramRequired : ℝ
  fileSize : ℝ
  contextWindow : ℝ

/-- `QualityMetrics`. -/
structure QualityMetrics where
  mmlu : Option ℝ
  humanEval : Option ℝ
  mt_bench : Option ℝ
  overallRating : ℝ

/-- `'fast' | 'medium' | 'slow'`. -/
inductive InferenceSpeed where
  | fast
  | medium
  | slow
  deriving DecidableEq, Repr

/-- `'high' | 'medium' | 'low'` quality level. -/
inductive QualityLevel where
  | high
  | medium
  | low
  deriving DecidableEq, Repr

/-- `PerformanceProfile`. -/
structure PerformanceProfile where
  inferenceSpeed : InferenceSpeed
  qualityLevel : QualityLevel

/-- `LLMModel.links`. -/
structure Links where
  huggingFace : Option String
  ollama : Option String
  website : Option String

/-- `LLMModel` (current `lib/types.ts`).  `recommendedContexts` is a JS object
used as a string-keyed map; modelled as an association list. -/
structure LLMModel where
  id : String
  name : String
  description : String
  parameters : String
  variants : List ModelVariant
  useCases : List String
  provider : String
  license : String
  links : Links
  tags : List String
  qualityMetrics : Option QualityMetrics
  performanceProfile : Option PerformanceProfile
  recommendedContexts : Option (List (String × ℝ))

/-- `'quality' | 'speed' | 'balanced'`. -/
inductive Priority where
  | quality
  | speed
  | balanced
  deriving DecidableEq, Repr

/-- `'high' | 'medium' | 'any'`. -/
inductive AcceptableQuality where
  | high
  | medium
  | any
  deriving DecidableEq, Repr

/-- `UserPreferences`. -/
structure UserPreferences where
  priority : Priority
  minContextForUseCase : Option ℝ
  acceptableQuality : Option AcceptableQuality
  selectedUseCases : Option (List String)

/-- `HardwareSpecs.gpu`. -/
structure GPU where
  model : String
  vram : ℝ
  detected : Bool

/-- `HardwareSpecs.cpu`. -/
structure CPU where
  cores : ℝ
  model : Option String

/-- `HardwareSpecs.os`. -/
inductive OS where
  | windows
  | macos
  | linux
  | unknown

/-- `HardwareSpecs`. -/
structure HardwareSpecs where
  gpu : Option GPU
  ram : ℝ
  cpu : Option CPU
  os : Option OS
  storage : Option ℝ
  preferences : Option UserPreferences

/-- `VariantRecommendation`. -/
structure VariantRecommendation where
  variant : ModelVariant
  assessment : FitnessAssessment

/-- `RecommendedModel`. -/
structure RecommendedModel where
  model : LLMModel
  variants : List VariantRecommendation
  defaultVariant : ModelVariant
  assessment : FitnessAssessment

/-- `RecommendationFilters`. -/
structure RecommendationFilters where
  useCases : Option (List String)
  maxVRAM : Option ℝ
  maxRAM : Option ℝ
  minContextWindow : Option ℝ

/-- The sort modes of `sortModels`. -/
inductive SortBy where
  | score
  | vram
  | size
  | context
  | efficiency

/-- Common shape of the per-factor evaluators: one explainable reason plus a
signed score contribution. -/
structure EvalResult where
  reason : ExplainableReason
  scoreImpact : ℝ

/-- `evaluateVRAM(hardware, variant)`. -/
def evaluateVRAM (hardware : HardwareSpecs) (variant : ModelVariant) : EvalResult :=
  match hardware.gpu with
  | none => { reason := ⟨"VRAM", Rating.neutral, Impact.high⟩, scoreImpact := -20 }
  | some gpu =>
    let utilization := variant.vramRequired / gpu.vram
    let scoreImpact : ℝ :=
      if utilization > 0.5 then -(((utilization - 0.5) * 2) ^ (1.8 : ℝ)) * 30 else 0
    let rating :=
      if utilization ≤ 0.7 then Rating.positive
      else if utilization ≤ 0.9 then Rating.neutral
      else Rating.negative
    { reason := ⟨"VRAM", rating, Impact.high⟩, scoreImpact := jround scoreImpact }

/-- `evaluateRAM(hardware, variant)`. -/
def evaluateRAM (hardware : HardwareSpecs) (variant : ModelVariant) : EvalResult :=
  let utilization := variant.ramRequired / hardware.ram
  let scoreImpact : ℝ :=
    if utilization > 0.5 then -(((utilization - 0.5) * 2) ^ (1.8 : ℝ)) * 15 else 0
  let rating :=
    if utilization ≤ 0.7 then Rating.positive
    else if utilization ≤ 0.85 then Rating.neutral
    else Rating.negative
  { reason := ⟨"RAM", rating, Impact.medium⟩, scoreImpact := jround scoreImpact }

/-- The parameter count parsed in `evaluateQuality` (`paramMatch ?
parseFloat(paramMatch[1]) : 0`). -/
def paramCountOf (parameters : String) : ℝ :=
  match scanParam parameters.data with
  | some q => (q : ℝ)
  | none => 0

/-- `evaluateQuality(model, variant, preferences)` (current revision: runs
unconditionally, blending parameter count with a benchmark or context bonus). -/
def evaluateQuality (model : LLMModel) (variant : ModelVariant)
    (preferences : UserPreferences) : EvalResult :=
  let paramCount := paramCountOf model.parameters
  let capabilityScore := min 25 (paramCount * 1.5)
  let benchmarkBonus : ℝ :=
    match model.qualityMetrics with
    | some metrics =>
      let mmluNorm := metrics.mmlu.getD 0 / 100
      let humanEvalNorm := metrics.humanEval.getD 0 / 100
      let mtBenchNorm := metrics.mt_bench.getD 0 / 10
      let scores := [mmluNorm, humanEvalNorm, mtBenchNorm].filter (fun s => decide (s > 0))
      let avgScore := if scores.length > 0 then scores.sum / scores.length else 0
      avgScore * 10
    | none =>
      if variant.contextWindow ≥ 128000 then 3
      else if variant.contextWindow ≥ 32000 then 2
      else if variant.contextWindow ≥ 16000 then 1
      else 0
  let totalScore := capabilityScore + benchmarkBonus
  let estimatedRating := totalScore / 35 * 5
  let meetsPreference : Prop :=
    ¬(preferences.acceptableQuality = some AcceptableQuality.high) ∨ estimatedRating ≥ 4.0
  let finalScore := if meetsPreference then totalScore else totalScore - 20
  let rating :=
    if totalScore ≥ 15 then Rating.positive
    else if totalScore ≥ 8 then Rating.neutral
    else Rating.negative
  { reason := ⟨"Model Capability", rating, Impact.high⟩, scoreImpact := finalScore }

/-- Lookup in the `recommendedContexts` map (`model.recommendedContexts?.[useCase]`). -/
def lookupContext (rc : Option (List (String × ℝ))) (useCase : String) : Option ℝ :=
  match rc with
  | none => none
  | some l => (l.find? (fun p => p.1 == useCase)).map (fun p => p.2)

/-- `evaluateContext(model, variant, useCase)`.  JS note: `if (!recommended)`
treats a recommended context of `0` the same as an absent one. -/
def evaluateContext (model : LLMModel) (variant : ModelVariant) (useCase : String) :
    EvalResult :=
  match lookupContext model.recommendedContexts useCase with
  | none => { reason := ⟨"Context Window", Rating.neutral, Impact.low⟩, scoreImpact := 0 }
  | some recommended =>
    if recommended = 0 then
      { reason := ⟨"Context Window", Rating.neutral, Impact.low⟩, scoreImpact := 0 }
    else
      let ratio := variant.contextWindow / recommended
      if ratio ≥ 2 then
        { reason := ⟨"Context Window", Rating.positive, Impact.medium⟩, scoreImpact := 8 }
      else if ratio ≥ 1 then
        { reason := ⟨"Context Window", Rating.positive, Impact.medium⟩, scoreImpact := 5 }
      else if ratio ≥ 0.5 then
        { reason := ⟨"Context Window", Rating.neutral, Impact.medium⟩, scoreImpact := 0 }
      else
        { reason := ⟨"Context Window", Rating.negative, Impact.medium⟩, scoreImpact := -5 }

/-- `evaluatePerformanceProfile(model, preferences)`; the TS body immediately
asserts `model.performanceProfile!`, and the caller guards on presence, so the
profile is taken as a direct argument. -/
def evaluatePerformanceProfile (profile : PerformanceProfile)
    (preferences : UserPreferences) : EvalResult :=
  match preferences.priority with
  | Priority.speed =>
    match profile.inferenceSpeed with
    | InferenceSpeed.fast => { reason := ⟨"Speed", Rating.positive, Impact.high⟩, scoreImpact := 10 }
    | InferenceSpeed.medium => { reason := ⟨"Speed", Rating.neutral, Impact.medium⟩, scoreImpact := 0 }
    | InferenceSpeed.slow => { reason := ⟨"Speed", Rating.negative, Impact.high⟩, scoreImpact := -15 }
  | Priority.quality =>
    match profile.qualityLevel with
    | QualityLevel.high =>
      { reason := ⟨"Quality Level", Rating.positive, Impact.high⟩, scoreImpact := 10 }
    | _ => { reason := ⟨"Quality Level", Rating.neutral, Impact.medium⟩, scoreImpact := 0 }
  | Priority.balanced =>
    { reason := ⟨"Performance", Rating.neutral, Impact.low⟩, scoreImpact := 0 }

/-- `scoreToCategory(score)`. -/
def scoreToCategory (score : ℝ) : FitnessCategory :=
  if score ≥ 90 then FitnessCategory.excellent
  else if score ≥ 70 then FitnessCategory.good
  else if score ≥ 50 then FitnessCategory.fair
  else if score ≥ 30 then FitnessCategory.poor
  else FitnessCategory.incompatible

/-- `getWarnings(hardware, variant)`. -/
def getWarnings (hardware : HardwareSpecs) (variant : ModelVariant) : List String :=
  (match hardware.gpu with
   | some gpu =>
     if variant.vramRequired / gpu.vram > 0.9 then
       ["High VRAM usage - performance may be impacted"]
     else []
   | none => []) ++
  (if variant.ramRequired / hardware.ram > 0.8 then
     ["High RAM usage - close other applications"]
   else []) ++
  (match hardware.cpu with
   | some cpu => if cpu.cores < 4 then ["Low CPU core count may limit inference speed"] else []
   | none => [])

/-- `generateRecommendations(category, reasons, variant)`. -/
def generateRecommendations (category : FitnessCategory)
    (reasons : List ExplainableReason) (variant : ModelVariant) : List String :=
  let negativeReasons := reasons.filter (fun r => r.rating == Rating.negative)
  (if category = FitnessCategory.poor ∨ category = FitnessCategory.incompatible then
     ["Consider a smaller model or upgrading your hardware"]
   else []) ++
  (if negativeReasons.any (fun r => r.factor == "VRAM") then
     ["Try a more aggressive quantization (Q4 instead of Q8)"]
   else []) ++
  (if negativeReasons.any (fun r => r.factor == "Quality") then
     ["Consider a larger model if hardware permits"]
   else []) ++
  (if negativeReasons.any (fun r => strIncludes r.factor "Speed") then
     ["For faster inference, choose a smaller model"]
   else [])

/-- The use case picked in `evaluateModel`:
`preferences.selectedUseCases?.[0] || model.useCases[0]` (an empty selected
string is falsy and falls through to the model's first use case). -/
def pickUseCase (preferences : UserPreferences) (model : LLMModel) : String :=
  match preferences.selectedUseCases with
  | some (u :: _) => if u = "" then model.useCases.headD "" else u
  | _ => model.useCases.headD ""

/-- The quantization bonus at the end of `evaluateModel`. -/
def quantizationBonus (variant : ModelVariant) : ℝ :=
  if strIncludes variant.quantization "Q4" then 5
  else if strIncludes variant.quantization "Q5" then 3
  else 0

/-- The signed sum accumulated by `evaluateModel` before the floor clamp:
base `100` plus each factor's contribution. -/
def scoreSum (model : LLMModel) (variant : ModelVariant) (hardware : HardwareSpecs)
    (preferences : UserPreferences) : ℝ :=
  100 + (evaluateVRAM hardware variant).scoreImpact
      + (evaluateRAM hardware variant).scoreImpact
      + (evaluateQuality model variant preferences).scoreImpact
      + (evaluateContext model variant (pickUseCase preferences model)).scoreImpact
      + (match model.performanceProfile with
         | some profile => (evaluatePerformanceProfile profile preferences).scoreImpact
         | none => 0)
      + quantizationBonus variant

/-- `evaluateModel(model, variant, hardware, preferences)`. -/
def evaluateModel (model : LLMModel) (variant : ModelVariant) (hardware : HardwareSpecs)
    (preferences : UserPreferences) : FitnessAssessment :=
  let vramEval := evaluateVRAM hardware variant
  let ramEval := evaluateRAM hardware variant
  let qualityEval := evaluateQuality model variant preferences
  let contextEval := evaluateContext model variant (pickUseCase preferences model)
  let reasons :=
    [vramEval.reason, ramEval.reason, qualityEval.reason, contextEval.reason] ++
    (match model.performanceProfile with
     | some profile => [(evaluatePerformanceProfile profile preferences).reason]
     | none => [])
  let baseScore :=
    max 0 (100 + vramEval.scoreImpact + ramEval.scoreImpact + qualityEval.scoreImpact
             + contextEval.scoreImpact
             + (match model.performanceProfile with
                | some profile => (evaluatePerformanceProfile profile preferences).scoreImpact
                | none => 0)
             + quantizationBonus variant)
  let category := scoreToCategory baseScore
  { category := category
    score := baseScore
    reasons := reasons
    warnings := getWarnings hardware variant
    recommendations := generateRecommendations category reasons variant }


/-- The chain of hard filters and user filters guarding the inner loop of
`recommendModels`; `true` means the variant survives (no `continue` fires).
JS truthiness: a threshold of `0` in `filters` is falsy and imposes no
constraint. -/
def passesFilters (hardware : HardwareSpecs) (filters : Option RecommendationFilters)
    (model : LLMModel) (variant : ModelVariant) : Bool :=
  !(match hardware.gpu with
    | some gpu => decide (variant.vramRequired > gpu.vram)
    | none => false) &&
  !(decide (variant.ramRequired > hardware.ram)) &&
  !(match filters with
    | some f =>
      match f.maxVRAM with
      | some t => decide (t ≠ 0) && decide (variant.vramRequired > t)
      | none => false
    | none => false) &&
  !(match filters with
    | some f =>
      match f.maxRAM with
      | some t => decide (t ≠ 0) && decide (variant.ramRequired > t)
      | none => false
    | none => false) &&
  !(match filters with
    | some f =>
      match f.minContextWindow with
      | some t => decide (t ≠ 0) && decide (variant.contextWindow < t)
      | none => false
    | none => false) &&
  !(match filters with
    | some f =>
      match f.useCases with
      | some ucs => decide (ucs.length > 0) && !(ucs.any (fun uc => model.useCases.contains uc))
      | none => false
    | none => false)

/-- The default preference record (`hardware.preferences || { priority:
'balanced', acceptableQuality: 'any' }`). -/
def defaultPreferences : UserPreferences :=
  { priority := Priority.balanced
    minContextForUseCase := none
    acceptableQuality := some AcceptableQuality.any
    selectedUseCases := none }

/-- Descending stable sort of variant recommendations by assessment score
(`compatibleVariants.sort((a, b) => b.assessment.score - a.assessment.score)`;
ES2019 `Array.prototype.sort` is stable, and a stable sort for a total
preorder is unique, so `mergeSort` computes the same list). -/
def sortVariantsByScore (l : List VariantRecommendation) : List VariantRecommendation :=
  l.mergeSort (fun a b => decide (b.assessment.score ≤ a.assessment.score))

/-- Descending stable sort of recommendations by top-assessment score. -/
def sortRecommendationsByScore (l : List RecommendedModel) : List RecommendedModel :=
  l.mergeSort (fun a b => decide (b.assessment.score ≤ a.assessment.score))

/-- The per-model body of the loop in `recommendModels`: evaluate the
surviving variants, and if any survive, emit a `RecommendedModel` whose
default variant is the best-scoring one. -/
def recommendForModel (hardware : HardwareSpecs) (preferences : UserPreferences)
    (filters : Option RecommendationFilters) (model : LLMModel) :
    Option RecommendedModel :=
  let compatibleVariants :=
    (model.variants.filter (passesFilters hardware filters model)).map
      (fun variant => VariantRecommendation.mk variant
        (evaluateModel model variant hardware preferences))
  match sortVariantsByScore compatibleVariants with
  | [] => none
  | best :: rest =>
    some { model := model
           variants := best :: rest
           defaultVariant := best.variant
           assessment := best.assessment }

/-- `recommendModels(hardware, models, filters?)`. -/
def recommendModels (hardware : HardwareSpecs) (models : List LLMModel)
    (filters : Option RecommendationFilters) : List RecommendedModel :=
  let preferences := hardware.preferences.getD defaultPreferences
  sortRecommendationsByScore (models.filterMap (recommendForModel hardware preferences filters))

/-- `calculateEfficiency(model, variant)` (note the different parse default:
`paramMatch ? parseFloat(paramMatch[1]) : 1`). -/
def calculateEfficiency (model : LLMModel) (variant : ModelVariant) : ℝ :=
  let paramCount : ℝ :=
    match scanParam model.parameters.data with
    | some q => (q : ℝ)
    | none => 1
  let performanceScore : ℝ :=
    match model.qualityMetrics with
    | some metrics =>
      let mmluNorm := metrics.mmlu.getD 0 / 100
      let humanEvalNorm := metrics.humanEval.getD 0 / 100
      let mtBenchNorm := metrics.mt_bench.getD 0 / 10
      let scores := [mmluNorm, humanEvalNorm, mtBenchNorm].filter (fun s => decide (s > 0))
      if scores.length > 0 then
        paramCount * (0.5 + scores.sum / scores.length * 1.5)
      else paramCount
    | none => paramCount
  performanceScore / variant.vramRequired

/-- `sortModels(recommendations, sortBy)`; each case is the stable JS sort
with the corresponding comparator. -/
def sortModels (recommendations : List RecommendedModel) (sortBy : SortBy) :
    List RecommendedModel :=
  match sortBy with
  | SortBy.score =>
    recommendations.mergeSort (fun a b => decide (b.assessment.score ≤ a.assessment.score))
  | SortBy.vram =>
    recommendations.mergeSort
      (fun a b => decide (a.defaultVariant.vramRequired ≤ b.defaultVariant.vramRequired))
  | SortBy.size =>
    recommendations.mergeSort
      (fun a b => decide (a.defaultVariant.fileSize ≤ b.defaultVariant.fileSize))
  | SortBy.context =>
    recommendations.mergeSort
      (fun a b => decide (b.defaultVariant.contextWindow ≤ a.defaultVariant.contextWindow))
  | SortBy.efficiency =>
    recommendations.mergeSort
      (fun a b => decide (calculateEfficiency b.model b.defaultVariant ≤
                          calculateEfficiency a.model a.defaultVariant))

end

end RecommendationEngine

/-! ### Helper lemmas about the stable sorts -/

namespace RecommendationEngine

/-- Ascending-by-key `mergeSort` produces a list that is pairwise ordered by
the key. -/
theorem mergeSort_key_asc_pairwise {α : Type*} (f : α → ℝ) (l : List α) :
    (l.mergeSort (fun a b => decide (f a ≤ f b))).Pairwise (fun a b => f a ≤ f b) := by
  have htrans : ∀ a b c : α,
      (fun a b => decide (f a ≤ f b)) a b = true →
      (fun a b => decide (f a ≤ f b)) b c = true →
      (fun a b => decide (f a ≤ f b)) a c = true := by
    intro a b c hab hbc
    simp only [decide_eq_true_eq] at hab hbc ⊢
    exact le_trans hab hbc
  have htotal : ∀ a b : α,
      ((fun a b => decide (f a ≤ f b)) a b || (fun a b => decide (f a ≤ f b)) b a) = true := by
    intro a b
    simp only [Bool.or_eq_true, decide_eq_true_eq]
    exact le_total (f a) (f b)
  have h := List.sorted_mergeSort htrans htotal l
  exact h.imp (fun hab => by simpa using hab)

/-- Descending-by-key `mergeSort` produces a list that is pairwise ordered by
the reversed key comparison. -/
theorem mergeSort_key_desc_pairwise {α : Type*} (f : α → ℝ) (l : List α) :
    (l.mergeSort (fun a b => decide (f b ≤ f a))).Pairwise (fun a b => f b ≤ f a) := by
  have htrans : ∀ a b c : α,
      (fun a b => decide (f b ≤ f a)) a b = true →
      (fun a b => decide (f b ≤ f a)) b c = true →
      (fun a b => decide (f b ≤ f a)) a c = true := by
    intro a b c hab hbc
    simp only [decide_eq_true_eq] at hab hbc ⊢
    exact le_trans hbc hab
  have htotal : ∀ a b : α,
      ((fun a b => decide (f b ≤ f a)) a b || (fun a b => decide (f b ≤ f a)) b a) = true := by
    intro a b
    simp only [Bool.or_eq_true, decide_eq_true_eq]
    exact le_total (f b) (f a)
  have h := List.sorted_mergeSort htrans htotal l
  exact h.imp (fun hab => by simpa using hab)

end RecommendationEngine

section ClaimTheorems

open RecommendationEngine

/-- **C5.** The sequence returned by `recommendModels` is sorted by assessment
score in descending order, and re-sorting any recommendation sequence with
`sortModels` under the `'vram'` mode yields a sequence whose
`defaultVariant.vramRequired` values are in ascending order. -/
theorem C5_sort_orders :
    (∀ (hardware : HardwareSpecs) (models : List LLMModel)
        (filters : Option RecommendationFilters),
      (recommendModels hardware models filters).Pairwise
        (fun a b => b.assessment.score ≤ a.assessment.score)) ∧
    (∀ recommendations : List RecommendedModel,
      (sortModels recommendations SortBy.vram).Pairwise
        (fun a b => a.defaultVariant.vramRequired ≤ b.defaultVariant.vramRequired)) := by
  constructor
  · intro hardware models filters
    exact mergeSort_key_desc_pairwise (fun r : RecommendedModel => r.assessment.score) _
  · intro recommendations
    exact mergeSort_key_asc_pairwise
      (fun r : RecommendedModel => r.defaultVariant.vramRequired) recommendations

/-- **C9.** `sortModels` is pure with respect to its input: under every sort
mode the output is a permutation of the input list — in particular it contains
exactly the input elements, with their assessments untouched (no
re-evaluation) — and the input list itself is unchanged (embedding is
functional, so this is the membership equivalence below). -/
theorem C9_sortModels_permutation :
    ∀ (recommendations : List RecommendedModel) (sortBy : SortBy),
      (sortModels recommendations sortBy).Perm recommendations ∧
      (∀ r : RecommendedModel, r ∈ sortModels recommendations sortBy ↔ r ∈ recommendations) := by
  intro recommendations sortBy
  have hperm : (sortModels recommendations sortBy).Perm recommendations := by
    cases sortBy <;> exact List.mergeSort_perm recommendations _
  exact ⟨hperm, fun r => hperm.mem_iff⟩

end ClaimTheorems

namespace RecommendationEngine

/-- Surviving the filter chain implies passing the two hard compatibility
filters. -/
theorem passesFilters_hard {hardware : HardwareSpecs} {filters : Option RecommendationFilters}
    {model : LLMModel} {variant : ModelVariant}
    (h : passesFilters hardware filters model variant = true) :
    (∀ gpu, hardware.gpu = some gpu → variant.vramRequired ≤ gpu.vram) ∧
    variant.ramRequired ≤ hardware.ram := by
  simp only [passesFilters, Bool.and_eq_true, Bool.not_eq_true'] at h
  obtain ⟨⟨⟨⟨⟨h1, h2⟩, -⟩, -⟩, -⟩, -⟩ := h
  refine ⟨?_, ?_⟩
  · intro gpu hg
    rw [hg] at h1
    have := of_decide_eq_false h1
    exact le_of_not_lt this
  · exact le_of_not_lt (of_decide_eq_false h2)

/-- Unpacking a successful `recommendForModel`. -/
theorem recommendForModel_some {hardware : HardwareSpecs} {preferences : UserPreferences}
    {filters : Option RecommendationFilters} {model : LLMModel} {r : RecommendedModel}
    (h : recommendForModel hardware preferences filters model = some r) :
    r.model = model ∧
    ∃ vr ∈ r.variants, vr.variant ∈ model.variants ∧
      passesFilters hardware filters model vr.variant = true := by
  rw [recommendForModel] at h
  set cvs := (model.variants.filter (passesFilters hardware filters model)).map
      (fun variant => VariantRecommendation.mk variant
        (evaluateModel model variant hardware preferences)) with hcvs
  cases hs : sortVariantsByScore cvs with
  | nil => rw [hs] at h; exact absurd h (by simp)
  | cons best rest =>
    rw [hs] at h
    have hr := Option.some.inj h
    have hb : best ∈ sortVariantsByScore cvs := by rw [hs]; exact List.mem_cons_self _ _
    rw [sortVariantsByScore] at hb
    have hb2 := List.mem_mergeSort.1 hb
    rw [hcvs] at hb2
    obtain ⟨v, hv, hveq⟩ := List.mem_map.1 hb2
    obtain ⟨hvmem, hvpass⟩ := List.mem_filter.1 hv
    refine ⟨by rw [← hr], best, ?_, ?_, ?_⟩
    · rw [← hr]
      exact List.mem_cons_self _ _
    · rw [← hveq]
      exact hvmem
    · rw [← hveq]
      exact hvpass

/-- Membership in the output of `recommendModels` comes from a successful
per-model recommendation. -/
theorem mem_recommendModels {hardware : HardwareSpecs} {models : List LLMModel}
    {filters : Option RecommendationFilters} {r : RecommendedModel}
    (hr : r ∈ recommendModels hardware models filters) :
    ∃ m ∈ models,
      recommendForModel hardware (hardware.preferences.getD defaultPreferences) filters m
        = some r := by
  rw [recommendModels, sortRecommendationsByScore] at hr
  have := List.mem_mergeSort.1 hr
  exact List.mem_filterMap.1 this

end RecommendationEngine

section ClaimTheoremsC1

open RecommendationEngine

/-- **C1.** Every `RecommendedModel` returned by `recommendModels` contains at
least one variant whose `vramRequired` does not exceed the GPU capacity (when
a GPU is present) and whose `ramRequired` does not exceed the profile's RAM;
and a model none of whose variants pass these hard filters does not appear in
the result at all. -/
theorem C1_hard_filters :
    ∀ (hardware : HardwareSpecs) (models : List LLMModel)
      (filters : Option RecommendationFilters) (r : RecommendedModel),
      r ∈ recommendModels hardware models filters →
      (∃ vr ∈ r.variants,
          (∀ gpu, hardware.gpu = some gpu → vr.variant.vramRequired ≤ gpu.vram) ∧
          vr.variant.ramRequired ≤ hardware.ram) ∧
      (∀ m : LLMModel,
          (∀ v ∈ m.variants,
              ¬((∀ gpu, hardware.gpu = some gpu → v.vramRequired ≤ gpu.vram) ∧
                v.ramRequired ≤ hardware.ram)) →
          r.model ≠ m) := by
  intro hardware models filters r hr
  obtain ⟨m₀, hm₀, hrec⟩ := mem_recommendModels hr
  obtain ⟨hrm, vr, hvr, hvmem, hvpass⟩ := recommendForModel_some hrec
  have hhard := passesFilters_hard hvpass
  refine ⟨⟨vr, hvr, hhard⟩, ?_⟩
  intro m hfail heq
  have hmm : m = m₀ := heq.symm.trans hrm
  exact hfail vr.variant (by rw [hmm]; exact hvmem) hhard

/-- Concrete hardware profile used to witness C1. -/
def c1hw : HardwareSpecs := ⟨some ⟨"gpu", 8, true⟩, 16, none, none, none, none⟩
/-- Concrete variant used to witness C1 (passes both hard filters). -/
def c1v : ModelVariant := ⟨"Q4_K_M", 4, 8, 1, 1000⟩
/-- Concrete catalog model used to witness C1. -/
def c1m : LLMModel :=
  ⟨"id", "n", "d", "7B", [c1v], ["chat"], "p", "l", ⟨none, none, none⟩, [], none, none, none⟩
/-- The recommendation produced for `c1m` on `c1hw`. -/
noncomputable def c1r : RecommendedModel :=
  ⟨c1m, [⟨c1v, evaluateModel c1m c1v c1hw defaultPreferences⟩], c1v,
    evaluateModel c1m c1v c1hw defaultPreferences⟩

/-- The C1 witness variant survives the filter chain. -/
theorem c1_pass : passesFilters c1hw none c1m c1v = true := by
  simp only [passesFilters, c1hw, c1v, Bool.and_eq_true, Bool.not_eq_true']
  norm_num

/-- Concrete evaluation of the pipeline on the C1 witness inputs. -/
theorem c1_eval : recommendModels c1hw [c1m] none = [c1r] := by
  rw [recommendModels]
  rw [show c1hw.preferences.getD defaultPreferences = defaultPreferences from rfl]
  simp only [List.filterMap, recommendForModel, sortVariantsByScore, sortRecommendationsByScore]
  rw [show c1m.variants = [c1v] from rfl]
  rw [List.filter_cons_of_pos c1_pass, List.filter_nil]
  simp only [List.map, List.mergeSort_singleton]
  rfl

/-- Witness for **C1** at the concrete inputs above. -/
theorem C1_hard_filters_witness :
    (∃ vr ∈ c1r.variants,
        (∀ gpu, c1hw.gpu = some gpu → vr.variant.vramRequired ≤ gpu.vram) ∧
        vr.variant.ramRequired ≤ c1hw.ram) ∧
    (∀ m : LLMModel,
        (∀ v ∈ m.variants,
            ¬((∀ gpu, c1hw.gpu = some gpu → v.vramRequired ≤ gpu.vram) ∧
              v.ramRequired ≤ c1hw.ram)) →
        c1r.model ≠ m) :=
  C1_hard_filters c1hw [c1m] none c1r (by rw [c1_eval]; exact List.mem_singleton.2 rfl)

end ClaimTheoremsC1

section ClaimTheoremsC10

open RecommendationEngine

/-- **C10.** Zero-valued thresholds are falsy in JS, so a filters record with
`maxVRAM = 0`, `maxRAM = 0`, or `minContextWindow = 0` imposes no constraint
through that threshold, and an empty `useCases` list imposes no use-case
constraint: each is equivalent to omitting the field, and the all-zero record
leaves `recommendModels` unchanged relative to passing no filters. -/
theorem C10_zero_thresholds_no_constraint :
    ∀ (hardware : HardwareSpecs) (model : LLMModel) (variant : ModelVariant)
      (f : RecommendationFilters),
      (passesFilters hardware (some {f with maxVRAM := some 0}) model variant =
        passesFilters hardware (some {f with maxVRAM := none}) model variant) ∧
      (passesFilters hardware (some {f with maxRAM := some 0}) model variant =
        passesFilters hardware (some {f with maxRAM := none}) model variant) ∧
      (passesFilters hardware (some {f with minContextWindow := some 0}) model variant =
        passesFilters hardware (some {f with minContextWindow := none}) model variant) ∧
      (passesFilters hardware (some {f with useCases := some []}) model variant =
        passesFilters hardware (some {f with useCases := none}) model variant) ∧
      ∀ models : List LLMModel,
        recommendModels hardware models (some ⟨some [], some 0, some 0, some 0⟩) =
          recommendModels hardware models none := by
  intro hardware model variant f
  refine ⟨by simp [passesFilters], by simp [passesFilters], by simp [passesFilters],
    by simp [passesFilters], ?_⟩
  intro models
  rw [recommendModels, recommendModels]
  have hone : ∀ (preferences : UserPreferences) (m : LLMModel),
      recommendForModel hardware preferences (some ⟨some [], some 0, some 0, some 0⟩) m =
      recommendForModel hardware preferences none m := by
    intro preferences m
    rw [recommendForModel, recommendForModel]
    have hf : m.variants.filter
          (passesFilters hardware (some ⟨some [], some 0, some 0, some 0⟩) m) =
        m.variants.filter (passesFilters hardware none m) :=
      List.filter_congr (fun v _ => by simp [passesFilters])
    rw [hf]
  rw [funext (hone (hardware.preferences.getD defaultPreferences))]

end ClaimTheoremsC10

namespace RecommendationEngine

/-- `parseFloat` of the group captured in `"20B"` is `20`. -/
theorem scanParam_20B : scanParam "20B".data = some 20 := by
  have h : "20B".data = ['2', '0', 'B'] := rfl
  rw [h]
  simp [scanParam, matchParamAt, digitsToNat, digitVal]

/-- Parameter count of the label `"20B"`. -/
theorem paramCountOf_20B : paramCountOf "20B" = 20 := by
  rw [paramCountOf, scanParam_20B]
  norm_num

/-- Concrete hardware for the above-100 score instance. -/
def c2hw : HardwareSpecs := ⟨some ⟨"RTX", 100, true⟩, 100, none, none, none, none⟩

/-- Concrete Q4 variant with ample headroom. -/
def c2v : ModelVariant := ⟨"Q4_K_M", 10, 10, 5, 1000⟩

/-- Concrete 20-billion-parameter model without benchmark metrics. -/
def c2m : LLMModel :=
  ⟨"m", "M", "d", "20B", [c2v], ["chat"], "p", "l", ⟨none, none, none⟩, [], none, none, none⟩

/-- On the concrete instance the accumulated score is `130`. -/
theorem c2_score : (evaluateModel c2m c2v c2hw defaultPreferences).score = 130 := by
  have hq : strIncludes "Q4_K_M" "Q4" = true := rfl
  simp [evaluateModel, evaluateVRAM, evaluateRAM, evaluateQuality, evaluateContext,
    lookupContext, pickUseCase, quantizationBonus, jround, c2hw, c2v, c2m,
    defaultPreferences, paramCountOf_20B, hq]
  norm_num

end RecommendationEngine

section ClaimTheoremsC2

open RecommendationEngine

/-- **C2.** For every input, the final score of `evaluateModel` equals the
accumulated signed sum starting from base `100`, clamped only at the floor
`0` — there is no ceiling clamp, and for some input the returned score
strictly exceeds `100`. -/
theorem C2_floor_only_clamp :
    (∀ (model : LLMModel) (variant : ModelVariant) (hardware : HardwareSpecs)
        (preferences : UserPreferences),
      (evaluateModel model variant hardware preferences).score =
        max 0 (scoreSum model variant hardware preferences)) ∧
    ∃ (model : LLMModel) (variant : ModelVariant) (hardware : HardwareSpecs)
        (preferences : UserPreferences),
      (evaluateModel model variant hardware preferences).score > 100 := by
  constructor
  · intro model variant hardware preferences
    rfl
  · exact ⟨c2m, c2v, c2hw, defaultPreferences, by rw [c2_score]; norm_num⟩

end ClaimTheoremsC2

/-! ### Facts about the exponent `1.8 = 9/5` -/

/-- Raising `x ^ 1.8` to the fifth power gives `x ^ 9`. -/
theorem rpow18_pow5 (x : ℝ) (hx : 0 ≤ x) : (x ^ (1.8 : ℝ)) ^ (5 : ℕ) = x ^ (9 : ℕ) := by
  rw [← Real.rpow_natCast (x ^ (1.8 : ℝ)) 5, ← Real.rpow_mul hx]
  rw [show ((1.8 : ℝ) * (5 : ℕ)) = ((9 : ℕ) : ℝ) by norm_num, Real.rpow_natCast]

/-- Numeric bracketing of `2 ^ 1.8`. -/
theorem two_rpow18_bounds : 10 / 3 < (2 : ℝ) ^ (1.8 : ℝ) ∧ (2 : ℝ) ^ (1.8 : ℝ) < 60 / 17 := by
  have hp : (0 : ℝ) < (2 : ℝ) ^ (1.8 : ℝ) := Real.rpow_pos_of_pos (by norm_num) _
  have h5 : ((2 : ℝ) ^ (1.8 : ℝ)) ^ (5 : ℕ) = 512 := by
    rw [rpow18_pow5 2 (by norm_num)]
    norm_num
  constructor
  · by_contra h
    push_neg at h
    have := pow_le_pow_left₀ (le_of_lt hp) h 5
    rw [h5] at this
    norm_num at this
  · by_contra h
    push_neg at h
    have := pow_le_pow_left₀ (by norm_num : (0 : ℝ) ≤ 60 / 17) h 5
    rw [h5] at this
    norm_num at this

/-- `(1/2) ^ 1.8`, bracketed. -/
theorem half_rpow18_bounds :
    17 / 60 < ((1 : ℝ) / 2) ^ (1.8 : ℝ) ∧ ((1 : ℝ) / 2) ^ (1.8 : ℝ) < 3 / 10 := by
  have h : ((1 : ℝ) / 2) ^ (1.8 : ℝ) = ((2 : ℝ) ^ (1.8 : ℝ))⁻¹ := by
    rw [show ((1 : ℝ) / 2) = (2 : ℝ)⁻¹ by norm_num, Real.inv_rpow (by norm_num)]
  obtain ⟨h1, h2⟩ := two_rpow18_bounds
  have hp : (0 : ℝ) < (2 : ℝ) ^ (1.8 : ℝ) := Real.rpow_pos_of_pos (by norm_num) _
  constructor
  · rw [h]
    rw [show (17 / 60 : ℝ) = (60 / 17 : ℝ)⁻¹ by norm_num]
    exact inv_strictAnti₀ hp h2
  · rw [h]
    rw [show (3 / 10 : ℝ) = (10 / 3 : ℝ)⁻¹ by norm_num]
    exact inv_strictAnti₀ (by norm_num) h1

namespace RecommendationEngine

/-- On the `u = 3/4` instance the VRAM contribution evaluates to `-9`. -/
theorem c3_impact_value :
    (evaluateVRAM ⟨some ⟨"g", 4, true⟩, 16, none, none, none, none⟩
        ⟨"Q8_0", 3, 1, 1, 1000⟩).scoreImpact = -9 := by
  rw [evaluateVRAM]
  simp only
  rw [if_pos (by norm_num : ((3 : ℝ) / 4 > 0.5))]
  rw [show ((3 : ℝ) / 4 - 0.5) * 2 = 1 / 2 by norm_num]
  obtain ⟨h1, h2⟩ := half_rpow18_bounds
  rw [jround]
  rw [show ⌊-((1 : ℝ) / 2) ^ (1.8 : ℝ) * 30 + 1 / 2⌋ = -9 from ?_]
  · norm_num
  · rw [Int.floor_eq_iff]
    constructor <;> push_cast <;> nlinarith

end RecommendationEngine

section ClaimTheoremsC3

open RecommendationEngine

/-- **C3 (counterexample).** At GPU capacity `4` and `vramRequired = 3`
(`u = 3/4`), the code's VRAM contribution is `Math.round` of the formula value
(namely `-9`), not the raw formula value `−((u−0.5)·2)^1.8·30 ≈ −8.63` the
claim states. -/
theorem C3_counterexample :
    (evaluateVRAM ⟨some ⟨"g", 4, true⟩, 16, none, none, none, none⟩
        ⟨"Q8_0", 3, 1, 1, 1000⟩).scoreImpact ≠
      -((((3 : ℝ) / 4 - 0.5) * 2) ^ (1.8 : ℝ)) * 30 := by
  rw [c3_impact_value]
  rw [show ((3 : ℝ) / 4 - 0.5) * 2 = 1 / 2 by norm_num]
  obtain ⟨h1, h2⟩ := half_rpow18_bounds
  intro h
  nlinarith

/-- **C3 (amended).** With a GPU present the VRAM contribution is `0` for
utilization `u ≤ 0.5` and otherwise `Math.round(−((u−0.5)·2)^1.8·30)`; the RAM
contribution is `0` for `u ≤ 0.5` and otherwise
`Math.round(−((u−0.5)·2)^1.8·15)`; with no GPU the VRAM factor contributes a
fixed `−20` with a neutral rating. -/
theorem C3_rounded_formula :
    (∀ (hardware : HardwareSpecs) (gpu : GPU) (variant : ModelVariant),
        hardware.gpu = some gpu →
        (evaluateVRAM hardware variant).scoreImpact =
          (if variant.vramRequired / gpu.vram ≤ 0.5 then 0
           else jround (-(((variant.vramRequired / gpu.vram - 0.5) * 2) ^ (1.8 : ℝ)) * 30))) ∧
    (∀ (hardware : HardwareSpecs) (variant : ModelVariant),
        (evaluateRAM hardware variant).scoreImpact =
          (if variant.ramRequired / hardware.ram ≤ 0.5 then 0
           else jround (-(((variant.ramRequired / hardware.ram - 0.5) * 2) ^ (1.8 : ℝ)) * 15))) ∧
    (∀ (hardware : HardwareSpecs) (variant : ModelVariant),
        hardware.gpu = none →
        (evaluateVRAM hardware variant).scoreImpact = -20 ∧
        (evaluateVRAM hardware variant).reason.rating = Rating.neutral) := by
  refine ⟨?_, ?_, ?_⟩
  · intro hardware gpu variant hg
    rw [evaluateVRAM, hg]
    simp only
    by_cases h : variant.vramRequired / gpu.vram ≤ 0.5
    · rw [if_neg (not_lt.2 h), if_pos h, jround]
      norm_num
    · rw [if_pos (lt_of_not_le h), if_neg h]
  · intro hardware variant
    rw [evaluateRAM]
    simp only
    by_cases h : variant.ramRequired / hardware.ram ≤ 0.5
    · rw [if_neg (not_lt.2 h), if_pos h, jround]
      norm_num
    · rw [if_pos (lt_of_not_le h), if_neg h]
  · intro hardware variant hg
    rw [evaluateVRAM, hg]
    exact ⟨rfl, rfl⟩

/-- Witness for the amended **C3** at a concrete GPU profile (`u = 1/2` for
VRAM, `u = 1/16` for RAM) and at a GPU-less profile. -/
theorem C3_rounded_formula_witness :
    ((evaluateVRAM ⟨some ⟨"g", 4, true⟩, 16, none, none, none, none⟩
        ⟨"Q8_0", 2, 1, 1, 1000⟩).scoreImpact =
      (if (2 : ℝ) / 4 ≤ 0.5 then 0
       else jround (-((((2 : ℝ) / 4 - 0.5) * 2) ^ (1.8 : ℝ)) * 30))) ∧
    ((evaluateRAM ⟨some ⟨"g", 4, true⟩, 16, none, none, none, none⟩
        ⟨"Q8_0", 2, 1, 1, 1000⟩).scoreImpact =
      (if (1 : ℝ) / 16 ≤ 0.5 then 0
       else jround (-((((1 : ℝ) / 16 - 0.5) * 2) ^ (1.8 : ℝ)) * 15))) ∧
    ((evaluateVRAM ⟨none, 16, none, none, none, none⟩
        ⟨"Q8_0", 2, 1, 1, 1000⟩).scoreImpact = -20 ∧
     (evaluateVRAM ⟨none, 16, none, none, none, none⟩
        ⟨"Q8_0", 2, 1, 1, 1000⟩).reason.rating = Rating.neutral) :=
  ⟨C3_rounded_formula.1 ⟨some ⟨"g", 4, true⟩, 16, none, none, none, none⟩ ⟨"g", 4, true⟩
      ⟨"Q8_0", 2, 1, 1, 1000⟩ rfl,
   C3_rounded_formula.2.1 ⟨some ⟨"g", 4, true⟩, 16, none, none, none, none⟩
      ⟨"Q8_0", 2, 1, 1, 1000⟩,
   C3_rounded_formula.2.2 ⟨none, 16, none, none, none, none⟩ ⟨"Q8_0", 2, 1, 1, 1000⟩ rfl⟩

end ClaimTheoremsC3

namespace RecommendationEngine

/-- `Math.round` is monotone. -/
theorem jround_mono {x y : ℝ} (h : x ≤ y) : jround x ≤ jround y := by
  rw [jround, jround]
  exact_mod_cast Int.floor_mono (by linarith)

/-- `Math.round` of an integer constant. -/
theorem jround_intCast (n : ℤ) : jround (n : ℝ) = n := by
  rw [jround]
  have hfl : ⌊(n : ℝ) + 1 / 2⌋ = n := by
    rw [Int.floor_eq_iff]
    refine ⟨by push_cast; linarith, by push_cast; linarith⟩
  rw [hfl]

/-- A successful anchored parameter match yields a non-negative value. -/
theorem matchParamAt_nonneg (s : List Char) (q : ℚ) (h : matchParamAt s = some q) :
    0 ≤ q := by
  rw [matchParamAt] at h
  by_cases hds : (s.takeWhile Char.isDigit).isEmpty
  · rw [if_pos hds] at h
    exact absurd h (by simp)
  · rw [if_neg hds] at h
    simp only at h
    split at h
    · split at h
      · have hq := Option.some.inj h
        rw [← hq]
        positivity
      · exact absurd h (by simp)
    · exact absurd h (by simp)

/-- Any parsed parameter count is non-negative. -/
theorem scanParam_nonneg : ∀ (s : List Char) (q : ℚ), scanParam s = some q → 0 ≤ q := by
  intro s
  induction s with
  | nil => intro q h; exact absurd h (by simp [scanParam])
  | cons c t ih =>
    intro q h
    rw [scanParam] at h
    cases hm : matchParamAt (c :: t) with
    | some q2 =>
      rw [hm] at h
      exact (Option.some.inj h) ▸ matchParamAt_nonneg _ _ hm
    | none =>
      rw [hm] at h
      exact ih q h

/-- `paramCountOf` is non-negative. -/
theorem paramCountOf_nonneg (s : String) : 0 ≤ paramCountOf s := by
  rw [paramCountOf]
  cases hq : scanParam s.data with
  | some q =>
    have := scanParam_nonneg _ _ hq
    simp only
    exact_mod_cast this
  | none => simp

end RecommendationEngine

namespace RecommendationEngine

/-- The RAM factor never subtracts more than `15` points for a variant whose
RAM demand fits in the available RAM. -/
theorem ramImpact_ge_neg15 (hardware : HardwareSpecs) (variant : ModelVariant)
    (h1 : variant.ramRequired ≤ hardware.ram) (hram : 0 < hardware.ram) :
    -15 ≤ (evaluateRAM hardware variant).scoreImpact := by
  rw [evaluateRAM]
  simp only
  set u := variant.ramRequired / hardware.ram with hu
  have hu1 : u ≤ 1 := by
    rw [hu, div_le_one hram]
    exact h1
  by_cases h : u > 0.5
  · rw [if_pos h]
    have hb : ((u - 0.5) * 2) ^ (1.8 : ℝ) ≤ 1 := by
      apply Real.rpow_le_one (by linarith) (by linarith) (by norm_num)
    have hv : (-15 : ℝ) ≤ -((u - 0.5) * 2) ^ (1.8 : ℝ) * 15 := by nlinarith
    have hj15 : jround (-15 : ℝ) = -15 := by
      rw [show ((-15 : ℝ)) = ((-15 : ℤ) : ℝ) by norm_num, jround_intCast]
    calc (-15 : ℝ) = jround (-15) := hj15.symm
    _ ≤ jround (-((u - 0.5) * 2) ^ (1.8 : ℝ) * 15) := jround_mono hv
  · rw [if_neg h]
    rw [jround]
    norm_num

/-- Bounding an `if meets then t else t - 20` expression from below. -/
theorem if_sub20_ge {p : Prop} [Decidable p] {t : ℝ} (h : 0 ≤ t) :
    -20 ≤ if p then t else t - 20 := by
  split <;> linarith

/-- The quality/capability factor never subtracts more than `20` points. -/
theorem qualityImpact_ge_neg20 (model : LLMModel) (variant : ModelVariant)
    (preferences : UserPreferences) :
    -20 ≤ (evaluateQuality model variant preferences).scoreImpact := by
  have hcap : (0 : ℝ) ≤ min 25 (paramCountOf model.parameters * 1.5) := by
    have := paramCountOf_nonneg model.parameters
    apply le_min (by norm_num)
    nlinarith
  rw [evaluateQuality]
  cases hm : model.qualityMetrics with
  | some metrics =>
    simp only [hm]
    apply if_sub20_ge
    apply add_nonneg hcap
    apply mul_nonneg ?_ (by norm_num)
    split
    · apply div_nonneg ?_ (by positivity)
      apply List.sum_nonneg
      intro x hx
      have hx0 : x > 0 := of_decide_eq_true (List.mem_filter.1 hx).2
      linarith
    · norm_num
  | none =>
    simp only [hm]
    apply if_sub20_ge
    apply add_nonneg hcap
    split
    · norm_num
    · split
      · norm_num
      · split <;> norm_num

/-- The context factor never subtracts more than `5` points. -/
theorem contextImpact_ge_neg5 (model : LLMModel) (variant : ModelVariant) (useCase : String) :
    -5 ≤ (evaluateContext model variant useCase).scoreImpact := by
  rw [evaluateContext]
  cases hm : lookupContext model.recommendedContexts useCase with
  | none => norm_num
  | some recommended =>
    simp only
    split
    · norm_num
    · split
      · norm_num
      · split
        · norm_num
        · split <;> norm_num

/-- The performance-profile factor never subtracts more than `15` points. -/
theorem perfImpact_ge_neg15 (profile : PerformanceProfile) (preferences : UserPreferences) :
    -15 ≤ (evaluatePerformanceProfile profile preferences).scoreImpact := by
  rw [evaluatePerformanceProfile]
  split
  · split <;> norm_num
  · split <;> norm_num
  · norm_num

/-- The quantization bonus is non-negative. -/
theorem quantizationBonus_nonneg (variant : ModelVariant) : 0 ≤ quantizationBonus variant := by
  rw [quantizationBonus]
  split
  · norm_num
  · split <;> norm_num

end RecommendationEngine

namespace RecommendationEngine

/-- A variant demanding exactly the GPU capacity (`u = 1`) gets VRAM
contribution `-30`. -/
theorem vramImpact_at_capacity (hardware : HardwareSpecs) (gpu : GPU) (variant : ModelVariant)
    (hg : hardware.gpu = some gpu) (hvz : gpu.vram ≠ 0)
    (hv : variant.vramRequired = gpu.vram) :
    (evaluateVRAM hardware variant).scoreImpact = -30 := by
  rw [evaluateVRAM, hg]
  simp only [hv, div_self hvz]
  rw [if_pos (by norm_num : (1 : ℝ) > 0.5)]
  rw [show (((1 : ℝ) - 0.5) * 2) = 1 by norm_num, Real.one_rpow]
  rw [show (-(1 : ℝ) * 30) = ((-30 : ℤ) : ℝ) by norm_num, jround_intCast]
  norm_num

/-- A variant demanding half the GPU capacity (`u = 0.5`) gets VRAM
contribution `0`. -/
theorem vramImpact_at_half (hardware : HardwareSpecs) (gpu : GPU) (variant : ModelVariant)
    (hg : hardware.gpu = some gpu) (hvz : gpu.vram ≠ 0)
    (hv : variant.vramRequired = gpu.vram / 2) :
    (evaluateVRAM hardware variant).scoreImpact = 0 := by
  rw [evaluateVRAM, hg]
  have hu : variant.vramRequired / gpu.vram = 1 / 2 := by
    rw [hv]
    field_simp
    ring
  simp only [hu]
  rw [if_neg (by norm_num : ¬((1 : ℝ) / 2 > 0.5))]
  rw [jround]
  norm_num

end RecommendationEngine

namespace RecommendationEngine

/-- The final score is the floor-clamped accumulated sum. -/
theorem evaluateModel_score (model : LLMModel) (variant : ModelVariant)
    (hardware : HardwareSpecs) (preferences : UserPreferences) :
    (evaluateModel model variant hardware preferences).score =
      max 0 (scoreSum model variant hardware preferences) := rfl

/-- `scoreSum` spelled out factor by factor. -/
theorem scoreSum_def (model : LLMModel) (variant : ModelVariant)
    (hardware : HardwareSpecs) (preferences : UserPreferences) :
    scoreSum model variant hardware preferences =
      100 + (evaluateVRAM hardware variant).scoreImpact
        + (evaluateRAM hardware variant).scoreImpact
        + (evaluateQuality model variant preferences).scoreImpact
        + (evaluateContext model variant (pickUseCase preferences model)).scoreImpact
        + (match model.performanceProfile with
           | some profile => (evaluatePerformanceProfile profile preferences).scoreImpact
           | none => 0)
        + quantizationBonus variant := rfl

end RecommendationEngine

section ClaimTheoremsC4

open RecommendationEngine

/-- **C4 (amended).** With a GPU of positive capacity and positive system RAM,
a variant that passes the RAM hard filter and demands exactly the GPU capacity
(`u = 1.0`) is not dropped by the hard filters (they use `<=`), and its
evaluated score is strictly lower than that of an otherwise identical variant
at `u = 0.5`. -/
theorem C4_boundary_strict :
    ∀ (hardware : HardwareSpecs) (gpu : GPU) (model : LLMModel)
      (preferences : UserPreferences) (v1 v2 : ModelVariant),
      hardware.gpu = some gpu → 0 < gpu.vram → 0 < hardware.ram →
      v1.vramRequired = gpu.vram →
      v2 = { v1 with vramRequired := gpu.vram / 2 } →
      v1.ramRequired ≤ hardware.ram →
      passesFilters hardware none model v1 = true ∧
      (evaluateModel model v1 hardware preferences).score <
        (evaluateModel model v2 hardware preferences).score := by
  intro hardware gpu model preferences v1 v2 hg hgv hram hv1 hv2 hr
  subst hv2
  constructor
  · simp only [passesFilters, hg, Bool.and_eq_true, Bool.not_eq_true']
    refine ⟨⟨⟨⟨⟨?_, ?_⟩, trivial⟩, trivial⟩, trivial⟩, trivial⟩
    · exact decide_eq_false (not_lt.2 (le_of_eq hv1))
    · exact decide_eq_false (not_lt.2 hr)
  · rw [evaluateModel_score, evaluateModel_score, scoreSum_def, scoreSum_def]
    rw [vramImpact_at_capacity hardware gpu v1 hg (ne_of_gt hgv) hv1]
    rw [vramImpact_at_half hardware gpu { v1 with vramRequired := gpu.vram / 2 } hg
      (ne_of_gt hgv) rfl]
    have hre : evaluateRAM hardware { v1 with vramRequired := gpu.vram / 2 } =
        evaluateRAM hardware v1 := rfl
    have hqe : evaluateQuality model { v1 with vramRequired := gpu.vram / 2 } preferences =
        evaluateQuality model v1 preferences := rfl
    have hce : evaluateContext model { v1 with vramRequired := gpu.vram / 2 }
        (pickUseCase preferences model) =
        evaluateContext model v1 (pickUseCase preferences model) := rfl
    have hbe : quantizationBonus { v1 with vramRequired := gpu.vram / 2 } =
        quantizationBonus v1 := rfl
    rw [hre, hqe, hce, hbe]
    have hRa := ramImpact_ge_neg15 hardware v1 hr hram
    have hQ := qualityImpact_ge_neg20 model v1 preferences
    have hC := contextImpact_ge_neg5 model v1 (pickUseCase preferences model)
    have hB := quantizationBonus_nonneg v1
    have hP : -15 ≤ (match model.performanceProfile with
        | some profile => (evaluatePerformanceProfile profile preferences).scoreImpact
        | none => 0) := by
      cases model.performanceProfile with
      | some profile => exact perfImpact_ge_neg15 profile preferences
      | none => norm_num
    set R := (evaluateRAM hardware v1).scoreImpact with hRdef
    set Q := (evaluateQuality model v1 preferences).scoreImpact with hQdef
    set C := (evaluateContext model v1 (pickUseCase preferences model)).scoreImpact with hCdef
    set P := (match model.performanceProfile with
        | some profile => (evaluatePerformanceProfile profile preferences).scoreImpact
        | none => 0) with hPdef
    set B := quantizationBonus v1 with hBdef
    rw [max_eq_right (by linarith), max_eq_right (by linarith)]
    linarith

end ClaimTheoremsC4

namespace RecommendationEngine

/-- `32 ^ 1.8 = 512` (since `32 = 2^5` and `1.8 = 9/5`). -/
theorem rpow18_32 : (32 : ℝ) ^ (1.8 : ℝ) = 512 := by
  rw [show (32 : ℝ) = 2 ^ (5 : ℕ) by norm_num, ← Real.rpow_natCast 2 5,
    ← Real.rpow_mul (by norm_num)]
  rw [show ((5 : ℕ) : ℝ) * (1.8 : ℝ) = ((9 : ℕ) : ℝ) by norm_num, Real.rpow_natCast]
  norm_num

/-- `parseFloat` of the group captured in `"1B"` is `1`. -/
theorem scanParam_1B : scanParam "1B".data = some 1 := by
  have h : "1B".data = ['1', 'B'] := rfl
  rw [h]
  simp [scanParam, matchParamAt, digitsToNat, digitVal]

/-- Parameter count of the label `"1B"`. -/
theorem paramCountOf_1B : paramCountOf "1B" = 1 := by
  rw [paramCountOf, scanParam_1B]
  norm_num

/-- Hardware for the C4 counterexample: 2 GB GPU, 2 GB RAM. -/
def c4hw : HardwareSpecs := ⟨some ⟨"g", 2, true⟩, 2, none, none, none, none⟩

/-- Variant at `u = 1.0` whose RAM demand (33 GB) dwarfs the 2 GB of RAM. -/
def c4v1 : ModelVariant := ⟨"Q8_0", 2, 33, 1, 1000⟩

/-- The otherwise identical variant at `u = 0.5`. -/
def c4v2 : ModelVariant := ⟨"Q8_0", 1, 33, 1, 1000⟩

/-- Small model carrying the two counterexample variants. -/
def c4m : LLMModel :=
  ⟨"m", "M", "d", "1B", [c4v1, c4v2], ["chat"], "p", "l", ⟨none, none, none⟩, [],
    none, none, none⟩

/-- RAM contribution on the counterexample profile: `u = 16.5`, giving
`round(−(32^1.8)·15) = −7680`. -/
theorem c4_ram_impact : (evaluateRAM c4hw c4v1).scoreImpact = -7680 := by
  rw [evaluateRAM]
  simp only [c4hw, c4v1]
  rw [if_pos (by norm_num : ((33 : ℝ) / 2 > 0.5))]
  rw [show (((33 : ℝ) / 2 - 0.5) * 2) = 32 by norm_num, rpow18_32]
  rw [show (-(512 : ℝ) * 15) = ((-7680 : ℤ) : ℝ) by norm_num, jround_intCast]
  norm_num

/-- Quality contribution of the 1-billion-parameter counterexample model. -/
theorem c4_quality_impact :
    (evaluateQuality c4m c4v1 defaultPreferences).scoreImpact = 3 / 2 := by
  simp [evaluateQuality, c4m, c4v1, defaultPreferences, paramCountOf_1B]
  norm_num

/-- Both counterexample variants clamp to score `0`. -/
theorem c4_scores_zero :
    (evaluateModel c4m c4v1 c4hw defaultPreferences).score = 0 ∧
    (evaluateModel c4m c4v2 c4hw defaultPreferences).score = 0 := by
  have hvr1 : (evaluateVRAM c4hw c4v1).scoreImpact = -30 :=
    vramImpact_at_capacity c4hw ⟨"g", 2, true⟩ c4v1 rfl (by norm_num) rfl
  have hvr2 : (evaluateVRAM c4hw c4v2).scoreImpact = 0 :=
    vramImpact_at_half c4hw ⟨"g", 2, true⟩ c4v2 rfl (by norm_num) (by norm_num [c4v2])
  have hre : evaluateRAM c4hw c4v2 = evaluateRAM c4hw c4v1 := rfl
  have hqe : evaluateQuality c4m c4v2 defaultPreferences =
      evaluateQuality c4m c4v1 defaultPreferences := rfl
  have hctx : (evaluateContext c4m c4v1 (pickUseCase defaultPreferences c4m)).scoreImpact = 0 := by
    simp [evaluateContext, lookupContext, c4m]
  have hctx2 : evaluateContext c4m c4v2 (pickUseCase defaultPreferences c4m) =
      evaluateContext c4m c4v1 (pickUseCase defaultPreferences c4m) := rfl
  have hquant : quantizationBonus c4v1 = 0 := by
    have h4 : strIncludes "Q8_0" "Q4" = false := rfl
    have h5 : strIncludes "Q8_0" "Q5" = false := rfl
    simp [quantizationBonus, c4v1, h4, h5]
  have hquant2 : quantizationBonus c4v2 = quantizationBonus c4v1 := rfl
  have hperf : (match c4m.performanceProfile with
      | some profile => (evaluatePerformanceProfile profile defaultPreferences).scoreImpact
      | none => 0) = (0 : ℝ) := by
    simp [c4m]
  constructor
  · rw [evaluateModel_score, scoreSum_def, hvr1, c4_ram_impact, c4_quality_impact,
      hctx, hperf, hquant]
    norm_num
  · rw [evaluateModel_score, scoreSum_def, hvr2, hre, c4_ram_impact, hqe,
      c4_quality_impact, hctx2, hctx, hperf, hquant2, hquant]
    norm_num

end RecommendationEngine

section ClaimTheoremsC4b

open RecommendationEngine

/-- **C4 (counterexample).** On a profile with 2 GB GPU and 2 GB RAM, a
variant at `u = 1.0` whose RAM demand floors both scores to `0` is not scored
strictly lower than the otherwise identical `u = 0.5` variant, refuting the
claim's unrestricted quantification over variants. -/
theorem C4_counterexample :
    c4hw.gpu = some ⟨"g", 2, true⟩ ∧
    c4v1.vramRequired = 2 ∧ c4v2 = { c4v1 with vramRequired := 2 / 2 } ∧
    ¬(c4v1.vramRequired > 2) ∧
    ¬((evaluateModel c4m c4v1 c4hw defaultPreferences).score <
      (evaluateModel c4m c4v2 c4hw defaultPreferences).score) := by
  obtain ⟨h1, h2⟩ := c4_scores_zero
  refine ⟨rfl, rfl, ?_, by norm_num [c4v1], ?_⟩
  · rw [c4v2, c4v1]
    norm_num
  · rw [h1, h2]
    norm_num

/-- Witness for the amended **C4** at an 8 GB GPU with 16 GB RAM. -/
theorem C4_boundary_strict_witness :
    passesFilters ⟨some ⟨"g", 8, true⟩, 16, none, none, none, none⟩ none
      ⟨"m", "M", "d", "7B", [], ["chat"], "p", "l", ⟨none, none, none⟩, [], none, none, none⟩
      ⟨"Q4_K_M", 8, 8, 1, 1000⟩ = true ∧
    (evaluateModel
        ⟨"m", "M", "d", "7B", [], ["chat"], "p", "l", ⟨none, none, none⟩, [], none, none, none⟩
        ⟨"Q4_K_M", 8, 8, 1, 1000⟩
        ⟨some ⟨"g", 8, true⟩, 16, none, none, none, none⟩ defaultPreferences).score <
      (evaluateModel
        ⟨"m", "M", "d", "7B", [], ["chat"], "p", "l", ⟨none, none, none⟩, [], none, none, none⟩
        ⟨"Q4_K_M", (8 : ℝ) / 2, 8, 1, 1000⟩
        ⟨some ⟨"g", 8, true⟩, 16, none, none, none, none⟩ defaultPreferences).score :=
  C4_boundary_strict ⟨some ⟨"g", 8, true⟩, 16, none, none, none, none⟩ ⟨"g", 8, true⟩
    ⟨"m", "M", "d", "7B", [], ["chat"], "p", "l", ⟨none, none, none⟩, [], none, none, none⟩
    defaultPreferences ⟨"Q4_K_M", 8, 8, 1, 1000⟩ ⟨"Q4_K_M", (8 : ℝ) / 2, 8, 1, 1000⟩
    rfl (by norm_num) (by norm_num) rfl rfl (by norm_num)

end ClaimTheoremsC4b

namespace GpuDatabase

/-- The §3 invariant on database records: declared capacities are
non-negative. -/
def vramNonNeg (g : GPUSpec) : Prop :=
  match g.vramGB with
  | VRAMField.single q => 0 ≤ q
  | VRAMField.multi qs => ∀ q ∈ qs, 0 ≤ q
  | VRAMField.shared => True

/-- `jsMin` of two non-negative rationals is non-negative. -/
theorem jsMin_nonneg {a b : ℚ} (ha : 0 ≤ a) (hb : 0 ≤ b) : 0 ≤ jsMin a b := by
  rw [jsMin]
  split <;> assumption

/-- `foldl max` only grows its accumulator. -/
theorem foldl_max_le_init (xs : List ℚ) (a : ℚ) : a ≤ xs.foldl max a := by
  induction xs generalizing a with
  | nil => exact le_refl a
  | cons y ys ih => exact le_trans (le_max_left a y) (ih (max a y))

/-- `spreadMax` of a list of non-negative rationals is non-negative. -/
theorem spreadMax_nonneg {qs : List ℚ} (h : ∀ q ∈ qs, 0 ≤ q) : 0 ≤ spreadMax qs := by
  cases qs with
  | nil => exact le_refl 0
  | cons x xs =>
    exact le_trans (h x (List.mem_cons_self x xs)) (foldl_max_le_init xs x)

/-- The shared-memory estimator returns a non-negative capacity for a
non-negative hint. -/
theorem estimateIntegratedGPUVRAM_nonneg (gpuName : String) (hint : Option ℚ)
    (hh : ∀ h, hint = some h → 0 ≤ h) :
    0 ≤ estimateIntegratedGPUVRAM gpuName hint := by
  cases hint with
  | none => rw [estimateIntegratedGPUVRAM]; norm_num
  | some ram =>
    have hr : 0 ≤ ram := hh ram rfl
    rw [estimateIntegratedGPUVRAM]
    simp only
    split
    · norm_num
    · have hfl : ∀ f : ℚ, 0 ≤ f → (0 : ℚ) ≤ ((⌊ram * f⌋ : ℤ) : ℚ) := by
        intro f hf
        have : (0 : ℤ) ≤ ⌊ram * f⌋ := Int.floor_nonneg.2 (by positivity)
        exact_mod_cast this
      split
      · exact jsMin_nonneg (hfl _ (by norm_num)) (by norm_num)
      · split
        · exact jsMin_nonneg (hfl _ (by norm_num)) (by norm_num)
        · split
          · exact jsMin_nonneg (hfl _ (by norm_num)) (by norm_num)
          · exact jsMin_nonneg (hfl _ (by norm_num)) (by norm_num)

/-- All pattern capacities are non-negative. -/
theorem vramPatterns_nonneg : ∀ p ∈ vramPatterns, (0 : ℚ) ≤ p.2 := by
  decide

/-- The pattern estimator returns a non-negative capacity for a non-negative
hint. -/
theorem estimateVRAMFromPattern_nonneg (gpuModel : String) (hint : Option ℚ)
    (hh : ∀ h, hint = some h → 0 ≤ h) :
    0 ≤ estimateVRAMFromPattern gpuModel hint := by
  rw [estimateVRAMFromPattern]
  cases hp : vramPatterns.find? (fun p => patternTest p.1 gpuModel) with
  | some p =>
    exact vramPatterns_nonneg p (List.mem_of_find?_eq_some hp)
  | none =>
    simp only
    split
    · exact estimateIntegratedGPUVRAM_nonneg gpuModel hint hh
    · norm_num

/-- A database hit comes from the database. -/
theorem dbLookup_mem {db : List GPUSpec} {normalized : String} {g : GPUSpec}
    (h : dbLookup db normalized = some g) : g ∈ db := by
  rw [dbLookup] at h
  split at h
  next g2 heq =>
    have hg : g2 = g := Option.some.inj h
    exact hg ▸ List.mem_of_find?_eq_some heq
  next heq => exact List.mem_of_find?_eq_some h

end GpuDatabase

section ClaimTheoremsC6

open GpuDatabase

/-- **C6.** For every identifier, every non-negative system-memory hint
(including an absent one) and every database satisfying the non-negativity
invariant, `findGPUSpec` returns a capacity that is at least `0` together with
one of the two defined fidelity tags (it is total by construction — no
exception path exists); and an identifier with no database match, no
pattern-list match and no integrated-GPU keyword resolves to the fixed
conservative discrete default `⟨6, estimated⟩`. -/
theorem C6_resolver_total :
    ∀ (db : List GPUSpec) (name : String) (hint : Option ℚ),
      (∀ g ∈ db, vramNonNeg g) →
      (∀ h, hint = some h → 0 ≤ h) →
      (0 ≤ (findGPUSpec db name hint).vram ∧
        ((findGPUSpec db name hint).source = Source.database ∨
         (findGPUSpec db name hint).source = Source.estimated)) ∧
      (dbLookup db (jsToLower name) = none →
        vramPatterns.find? (fun p => patternTest p.1 name) = none →
        integratedKeyword name = false →
        findGPUSpec db name hint = ⟨6, Source.estimated⟩) := by
  intro db name hint hdb hh
  constructor
  · rw [findGPUSpec]
    cases hl : dbLookup db (jsToLower name) with
    | some g =>
      simp only
      split
      · exact ⟨estimateIntegratedGPUVRAM_nonneg name hint hh, Or.inl rfl⟩
      · have hg := hdb g (dbLookup_mem hl)
        rw [vramNonNeg] at hg
        cases hv : g.vramGB with
        | single q =>
          rw [hv] at hg
          exact ⟨hg, Or.inl rfl⟩
        | multi qs =>
          rw [hv] at hg
          exact ⟨spreadMax_nonneg hg, Or.inl rfl⟩
        | shared => exact ⟨le_refl 0, Or.inl rfl⟩
    | none =>
      exact ⟨estimateVRAMFromPattern_nonneg name hint hh, Or.inr rfl⟩
  · intro hlook hpat hkey
    rw [findGPUSpec, hlook]
    rw [estimateVRAMFromPattern, hpat]
    simp only [hkey]
    rfl

/-- Witness for **C6** on the empty database, the unmatched identifier
`"zz"` and hint `8`. -/
theorem C6_resolver_total_witness :
    (0 ≤ (findGPUSpec [] "zz" (some 8)).vram ∧
      ((findGPUSpec [] "zz" (some 8)).source = Source.database ∨
       (findGPUSpec [] "zz" (some 8)).source = Source.estimated)) ∧
    (dbLookup [] (jsToLower "zz") = none →
      vramPatterns.find? (fun p => patternTest p.1 "zz") = none →
      integratedKeyword "zz" = false →
      findGPUSpec [] "zz" (some 8) = ⟨6, Source.estimated⟩) :=
  C6_resolver_total [] "zz" (some 8) (by intro g hg; exact absurd hg (by simp))
    (by intro h heq; rw [← Option.some.inj heq]; norm_num)

end ClaimTheoremsC6

namespace GpuDatabase

/-- Modelled from the spec (§4.1a): the 4-tier `(fraction, cap)` table of the
shared-memory estimator, selected by the same chip-family keyword cascade. -/
def specTierParams (gpuName : String) : ℚ × ℚ :=
  let lower := jsToLower gpuName
  if strIncludes lower "780m" || strIncludes lower "890m" ||
     strIncludes lower "880m" || strIncludes lower "iris xe" then (1/2, 16)
  else if strIncludes lower "680m" || strIncludes lower "760m" ||
          strIncludes lower "660m" || strIncludes lower "vega" then (2/5, 12)
  else if strIncludes lower "uhd" || strIncludes lower "intel hd" then (1/4, 8)
  else (3/10, 8)

end GpuDatabase

section ClaimTheoremsC7

open GpuDatabase

/-- **C7 (counterexample).** A present hint of `0` is falsy
(`if (!systemRAM) return 4`), so the estimator returns `4` where the claimed
formula `min(floor(0 · 0.25), 8)` gives `0` (identifier `"uhd"`, basic tier). -/
theorem C7_counterexample :
    estimateIntegratedGPUVRAM "uhd" (some 0) = 4 ∧
    jsMin ((⌊(0 : ℚ) * (1 / 4)⌋ : ℤ) : ℚ) 8 = 0 ∧
    estimateIntegratedGPUVRAM "uhd" (some 0) ≠ jsMin ((⌊(0 : ℚ) * (1 / 4)⌋ : ℤ) : ℚ) 8 := by
  have h1 : estimateIntegratedGPUVRAM "uhd" (some 0) = 4 := by
    rw [estimateIntegratedGPUVRAM, if_pos rfl]
  have h2 : jsMin ((⌊(0 : ℚ) * (1 / 4)⌋ : ℤ) : ℚ) 8 = 0 := by
    norm_num [jsMin]
  refine ⟨h1, h2, ?_⟩
  rw [h1, h2]
  norm_num

/-- **C7 (amended).** For every identifier and every strictly positive
system-memory hint the shared-memory estimator returns
`min(floor(hint · tierFraction), tierCap)` with the spec's 4-tier table
(high-end `(0.5, 16)`, mid `(0.4, 12)`, basic `(0.25, 8)`, unknown-integrated
`(0.3, 8)`); when the hint is absent — or present but `0`, which JS treats as
falsy — it returns exactly `4`; in particular `"Radeon 890M"` with hint `64`
resolves to `16`. -/
theorem C7_shared_memory_estimator :
    (∀ (gpuName : String) (r : ℚ), 0 < r →
        estimateIntegratedGPUVRAM gpuName (some r) =
          jsMin ((⌊r * (specTierParams gpuName).1⌋ : ℤ) : ℚ) (specTierParams gpuName).2) ∧
    (∀ gpuName : String, estimateIntegratedGPUVRAM gpuName none = 4) ∧
    (∀ gpuName : String, estimateIntegratedGPUVRAM gpuName (some 0) = 4) ∧
    estimateIntegratedGPUVRAM "Radeon 890M" (some 64) = 16 := by
  refine ⟨?_, ?_, ?_, ?_⟩
  · intro gpuName r hr
    rw [estimateIntegratedGPUVRAM, specTierParams]
    simp only
    rw [if_neg (ne_of_gt hr)]
    by_cases h1 : (strIncludes (jsToLower gpuName) "780m" ||
        strIncludes (jsToLower gpuName) "890m" || strIncludes (jsToLower gpuName) "880m" ||
        strIncludes (jsToLower gpuName) "iris xe") = true
    · rw [if_pos h1, if_pos h1]
    · rw [if_neg h1, if_neg h1]
      by_cases h2 : (strIncludes (jsToLower gpuName) "680m" ||
          strIncludes (jsToLower gpuName) "760m" || strIncludes (jsToLower gpuName) "660m" ||
          strIncludes (jsToLower gpuName) "vega") = true
      · rw [if_pos h2, if_pos h2]
      · rw [if_neg h2, if_neg h2]
        by_cases h3 : (strIncludes (jsToLower gpuName) "uhd" ||
            strIncludes (jsToLower gpuName) "intel hd") = true
        · rw [if_pos h3, if_pos h3]
        · rw [if_neg h3, if_neg h3]
  · intro gpuName
    rw [estimateIntegratedGPUVRAM]
  · intro gpuName
    rw [estimateIntegratedGPUVRAM, if_pos rfl]
  · rw [estimateIntegratedGPUVRAM]
    rw [if_neg (by norm_num), if_pos (by decide)]
    norm_num [jsMin]

/-- Witness for the amended **C7**: `"Radeon 890M"` (high-end tier) with the
positive hint `64` follows the formula, which evaluates to `16`. -/
theorem C7_shared_memory_estimator_witness :
    (estimateIntegratedGPUVRAM "Radeon 890M" (some 64) =
      jsMin ((⌊(64 : ℚ) * (specTierParams "Radeon 890M").1⌋ : ℤ) : ℚ)
        (specTierParams "Radeon 890M").2) ∧
    estimateIntegratedGPUVRAM "Radeon 890M" (some 64) = 16 :=
  ⟨C7_shared_memory_estimator.1 "Radeon 890M" 64 (by norm_num),
   C7_shared_memory_estimator.2.2.2⟩

end ClaimTheoremsC7

namespace RecommendationEngine

/-- GPU-less profile with plenty of RAM for the C8 evaluation. -/
def c8hw : HardwareSpecs := ⟨none, 100, none, none, none, none⟩

/-- Small variant with a short context window. -/
def c8v : ModelVariant := ⟨"Q8_0", 1, 10, 1, 1000⟩

/-- A 1-billion-parameter model without benchmarks: its capability factor is
rated negative. -/
def c8m : LLMModel :=
  ⟨"m", "M", "d", "1B", [c8v], ["chat"], "p", "l", ⟨none, none, none⟩, [],
    none, none, none⟩

/-- The RAM factor on the C8 instance. -/
theorem c8_ram : evaluateRAM c8hw c8v =
    ⟨⟨"RAM", Rating.positive, Impact.medium⟩, 0⟩ := by
  rw [evaluateRAM]
  simp only [c8hw, c8v]
  rw [if_neg (by norm_num : ¬((10 : ℝ) / 100 > 0.5)),
    if_pos (by norm_num : (10 : ℝ) / 100 ≤ 0.7)]
  rw [jround]
  norm_num

/-- The capability factor on the C8 instance: rated negative, contributing
`1.5`. -/
theorem c8_quality : evaluateQuality c8m c8v defaultPreferences =
    ⟨⟨"Model Capability", Rating.negative, Impact.high⟩, 3 / 2⟩ := by
  simp [evaluateQuality, c8m, c8v, defaultPreferences, paramCountOf_1B]
  norm_num

/-- The context factor on the C8 instance. -/
theorem c8_context : evaluateContext c8m c8v (pickUseCase defaultPreferences c8m) =
    ⟨⟨"Context Window", Rating.neutral, Impact.low⟩, 0⟩ := by
  simp [evaluateContext, lookupContext, c8m]

/-- Reasons produced on the C8 instance. -/
theorem c8_reasons : (evaluateModel c8m c8v c8hw defaultPreferences).reasons =
    [⟨"VRAM", Rating.neutral, Impact.high⟩, ⟨"RAM", Rating.positive, Impact.medium⟩,
     ⟨"Model Capability", Rating.negative, Impact.high⟩,
     ⟨"Context Window", Rating.neutral, Impact.low⟩] := by
  have h : (evaluateModel c8m c8v c8hw defaultPreferences).reasons =
      [(evaluateVRAM c8hw c8v).reason, (evaluateRAM c8hw c8v).reason,
       (evaluateQuality c8m c8v defaultPreferences).reason,
       (evaluateContext c8m c8v (pickUseCase defaultPreferences c8m)).reason] := rfl
  rw [h, c8_ram, c8_quality, c8_context]
  rfl

/-- Score on the C8 instance: `100 − 20 + 0 + 1.5 + 0 = 81.5`. -/
theorem c8_score : (evaluateModel c8m c8v c8hw defaultPreferences).score = 163 / 2 := by
  rw [evaluateModel_score, scoreSum_def]
  rw [show (evaluateVRAM c8hw c8v).scoreImpact = -20 from rfl]
  rw [c8_ram, c8_quality, c8_context]
  rw [show (match c8m.performanceProfile with
      | some profile => (evaluatePerformanceProfile profile defaultPreferences).scoreImpact
      | none => 0) = (0 : ℝ) from rfl]
  rw [show quantizationBonus c8v = 0 from rfl]
  norm_num

/-- Category on the C8 instance. -/
theorem c8_category : (evaluateModel c8m c8v c8hw defaultPreferences).category =
    FitnessCategory.good := by
  have h : (evaluateModel c8m c8v c8hw defaultPreferences).category =
      scoreToCategory ((evaluateModel c8m c8v c8hw defaultPreferences).score) := rfl
  rw [h, c8_score, scoreToCategory]
  rw [if_neg (by norm_num : ¬((163 : ℝ) / 2 ≥ 90)), if_pos (by norm_num : (163 : ℝ) / 2 ≥ 70)]

/-- Suggestions on the C8 instance: none at all. -/
theorem c8_recommendations :
    (evaluateModel c8m c8v c8hw defaultPreferences).recommendations = [] := by
  have h : (evaluateModel c8m c8v c8hw defaultPreferences).recommendations =
      generateRecommendations ((evaluateModel c8m c8v c8hw defaultPreferences).category)
        ((evaluateModel c8m c8v c8hw defaultPreferences).reasons) c8v := rfl
  rw [h, c8_category, c8_reasons]
  rfl

end RecommendationEngine

section ClaimTheoremsC8

open RecommendationEngine

/-- **C8.** On a concrete input whose model-capability reason is rated
negative, `generateRecommendations` produces no suggestions at all — in
particular not "Consider a larger model if hardware permits" — because it
matches the factor name `"Quality"` while the quality factor now emits
`"Model Capability"`: the suggestion branch is dead code. -/
theorem C8_capability_suggestion_missing :
    (∃ r ∈ (evaluateModel c8m c8v c8hw defaultPreferences).reasons,
        r.factor = "Model Capability" ∧ r.rating = Rating.negative) ∧
    "Consider a larger model if hardware permits" ∉
      (evaluateModel c8m c8v c8hw defaultPreferences).recommendations := by
  constructor
  · refine ⟨⟨"Model Capability", Rating.negative, Impact.high⟩, ?_, rfl, rfl⟩
    rw [c8_reasons]
    simp
  · rw [c8_recommendations]
    simp

end ClaimTheoremsC8
